import Mathlib

/-!
Verification of the code-generation core of the Gens-AI repository
(`src/generators/code_generator.py` and `src/parsers/test_parser.py`)
against its natural-language specification.

The Python source is shallowly embedded as executable Lean definitions.
Conventions used throughout:

* Python strings are Lean `String`s; character-index operations are carried
  out on `String.data : List Char`.
* Python `re` calls are embedded as specialised scanners, one per pattern,
  each translated from the concrete pattern with Python's leftmost /
  greedy / lazy matching semantics spelled out in the comment above it.
  `\w`, `\s` and `\d` are modelled by their ASCII meaning (the harness
  output and generated code handled by the program are ASCII).
* External collaborators are parameters: the Language Model Collaborator
  is a map from call index to raw response (`none` models an exception or
  an unusable/contentless response), the CPython `compile` builtin used by
  the syntax validator is an oracle `String -> Option (Int × String)`
  (`none` = compiles, `some (lineno, msg)` = SyntaxError), and one
  invocation of the pytest harness is a `HarnessOutcome`.
* Python `float` fields (`duration`, timestamps) are not modelled: no
  claim mentions them.  `success_rate` is modelled over `ℚ`; the only
  claim about it concerns the exact `total_tests == 0` branch.
* Dict-shaped records (test cases, elements) are modelled as structures
  whose fields are always present; an absent key is the empty string /
  empty list, which is how every producer in the repository builds them.
-/

/-- ASCII word character, the `\w` class of the source's regexes. -/
def wordChar (c : Char) : Bool :=
  (('a' ≤ c && c ≤ 'z') || ('A' ≤ c && c ≤ 'Z') || ('0' ≤ c && c ≤ '9') || c = '_')

/-- ASCII whitespace, the `\s` class of the source's regexes and the
character set stripped by Python's `str.strip()`. -/
def spaceChar (c : Char) : Bool :=
  (c = ' ' || c = '\t' || c = '\n' || c = '\r' || c = '\x0b' || c = '\x0c')

/-- ASCII digit, the `\d` class. -/
def digitChar (c : Char) : Bool := ('0' ≤ c && c ≤ '9')

/-- Characters of the class `[a-zA-Z0-9_]` used by `re.sub` in the source. -/
def asciiAlnumUnd (c : Char) : Bool :=
  (('a' ≤ c && c ≤ 'z') || ('A' ≤ c && c ≤ 'Z') || ('0' ≤ c && c ≤ '9') || c = '_')

/-- Characters of the class `[a-f0-9-]` used by the auto-generated-id check. -/
def hexDash (c : Char) : Bool :=
  (('a' ≤ c && c ≤ 'f') || ('0' ≤ c && c ≤ '9') || c = '-')

/-- Characters of the class `[\w.]` used by the error-type regex. -/
def wordDot (c : Char) : Bool := (wordChar c || c = '.')

/-- A single apostrophe, kept out of string literals as a character. -/
def apos : String := String.singleton (Char.ofNat 39)

/-- Python `str.strip()` on a character list. -/
def pyStripL (l : List Char) : List Char :=
  ((l.dropWhile spaceChar).reverse.dropWhile spaceChar).reverse

/-- Python `str.strip()`. -/
def pyStrip (s : String) : String := String.mk (pyStripL s.data)

/-- Python `str.strip(chars)` restricted to the single character `u`. -/
def pyStripChar (u : Char) (s : String) : String :=
  String.mk (((s.data.dropWhile (· = u)).reverse.dropWhile (· = u)).reverse)

/-- Python `str.lower()` (ASCII). -/
def pyLower (s : String) : String := String.mk (s.data.map Char.toLower)

/-- Python `str.upper()` (ASCII). -/
def pyUpper (s : String) : String := String.mk (s.data.map Char.toUpper)

/-- Python slice `s[:n]` (character count). -/
def pyTake (n : Nat) (s : String) : String := String.mk (s.data.take n)

/-- Python slice `s[n:]` (character count). -/
def pyDrop (n : Nat) (s : String) : String := String.mk (s.data.drop n)

/-- Prefix test on character lists. -/
def isPre : List Char → List Char → Bool
  | [], _ => true
  | _ :: _, [] => false
  | p :: ps, c :: cs => p = c && isPre ps cs

/-- Python `s.startswith(pre)` (kernel-reducible, character based). -/
def pyStartsWith (s pre : String) : Bool := isPre pre.data s.data

/-- Python `s.endswith(suf)` (character based). -/
def pyEndsWith (s suf : String) : Bool := isPre suf.data.reverse s.data.reverse

/-- Python `str.replace(pat, rep)` on character lists: non-overlapping,
left to right; `pat` is non-empty at every use site. -/
def pyReplaceL (pat rep : List Char) : Nat → List Char → List Char
  | 0, l => l
  | _, [] => []
  | fuel + 1, c :: cs =>
    if isPre pat (c :: cs) then rep ++ pyReplaceL pat rep fuel ((c :: cs).drop pat.length)
    else c :: pyReplaceL pat rep fuel cs

/-- Python `str.replace(pat, rep)`. -/
def pyReplace (s pat rep : String) : String :=
  String.mk (pyReplaceL pat.data rep.data s.data.length s.data)

/-- Python `s.split(u)` for a single-character separator. -/
def splitChar (u : Char) (l : List Char) : List String :=
  match l with
  | [] => [""]
  | c :: cs =>
    let rest := splitChar u cs
    if c = u then "" :: rest
    else
      match rest with
      | [] => [String.mk [c]]
      | p :: ps => String.mk ([c] ++ p.data) :: ps

/-- Python `sep.join(xs)`. -/
def joinSep (sep : String) : List String → String
  | [] => ""
  | x :: xs => xs.foldl (fun a b => a ++ sep ++ b) x

/-- Case-insensitive literal match: on success returns the rest of the
input after the literal (regex literal text under `re.IGNORECASE`). -/
def matchCI : List Char → List Char → Option (List Char)
  | [], l => some l
  | _ :: _, [] => none
  | p :: ps, c :: cs => if p.toLower = c.toLower then matchCI ps cs else none

/-- Case-sensitive literal match returning the rest after the literal. -/
def matchCS : List Char → List Char → Option (List Char)
  | [], l => some l
  | _ :: _, [] => none
  | p :: ps, c :: cs => if p = c then matchCS ps cs else none

/-- Index of the first occurrence of `pat` in `l` (Python `str.find`),
`none` when absent. -/
def findSubIdx (pat : List Char) : List Char → Option Nat
  | [] => if pat = [] then some 0 else none
  | c :: cs =>
    if isPre pat (c :: cs) then some 0
    else match findSubIdx pat cs with
      | some n => some (n + 1)
      | none => none

/-- Python `pat in s`. -/
def containsSub (s pat : String) : Bool := (findSubIdx pat.data s.data).isSome

/-- Python `s.find(pat, start)` restricted to successful results. -/
def findSubFrom (s pat : String) (start : Nat) : Option Nat :=
  match findSubIdx pat.data (s.data.drop start) with
  | some n => some (start + n)
  | none => none

/-- Numeric value of a digit list (Python `int()` of a `\d+` group). -/
def natOfDigits (l : List Char) : Nat :=
  l.foldl (fun a c => a * 10 + (c.toNat - '0'.toNat)) 0

/-- Python `re.sub(r'[^a-zA-Z0-9_]', '_', s)`. -/
def subNonAlnumUnd (s : String) : String :=
  String.mk (s.data.map (fun c => if asciiAlnumUnd c then c else '_'))

/-- Python `re.sub(r'_+', '_', s)`: collapse runs of underscores. -/
def collapseUnd (l : List Char) : List Char :=
  match l with
  | [] => []
  | c :: cs =>
    if c = '_' then '_' :: collapseUnd (cs.dropWhile (· = '_'))
    else c :: collapseUnd cs
termination_by l.length
decreasing_by
  · simpa using Nat.lt_succ_of_le (List.Sublist.length_le (List.dropWhile_sublist _))
  · simp

/-- String version of `collapseUnd`. -/
def collapseUndS (s : String) : String := String.mk (collapseUnd s.data)

/-- Python `str.isdigit()` on the first character (ASCII). -/
def headIsDigit (s : String) : Bool :=
  match s.data with
  | [] => false
  | c :: _ => digitChar c

/-!  Locator Analyzer (`code_generator.py` lines 18-140). -/

/-- Locator strategy priority levels (`LocatorStrategy` enum). -/
inductive LocatorStrategy where
  | TEST_ID | ID | ARIA | NAME | TEXT | CSS | XPATH
deriving DecidableEq, Repr

/-- Python `Enum.name` of a `LocatorStrategy` member. -/
def LocatorStrategy.enumName : LocatorStrategy → String
  | .TEST_ID => "TEST_ID"
  | .ID => "ID"
  | .ARIA => "ARIA"
  | .NAME => "NAME"
  | .TEXT => "TEXT"
  | .CSS => "CSS"
  | .XPATH => "XPATH"

/-- A page element attribute bag: the dict keys read by
`LocatorAnalyzer.analyze_element`; an absent key is `""`. -/
structure Element where
  id : String
  name : String
  text : String
  tag : String
  type : String
  data_testid : String
  testid : String
  aria_label : String
deriving DecidableEq, Repr

/-- The element with its `id` attribute removed (used to state that the Id
strategy is skipped: the analyzer reads `id` in no later branch). -/
def Element.eraseId (e : Element) : Element :=
  ⟨"", e.name, e.text, e.tag, e.type, e.data_testid, e.testid, e.aria_label⟩

/-- Python `re.match(r'^[a-f0-9-]{36}$', s)` is not None.  `re.match`
anchors at the start; `$` matches at the end of the string or just before
a final newline, so a 37-character string ending in a newline also
matches - this quirk of Python's `$` is reproduced. -/
def uuidLikeId (s : String) : Bool :=
  let l := s.data
  (l.length = 36 && l.all hexDash) ||
  (l.length = 37 && (l.take 36).all hexDash && l.getLast? = some '\n')

namespace LocatorAnalyzer

/-- Embedding of `LocatorAnalyzer.analyze_element` (lines 33-121):
returns the `(strategy, locator_code, reasoning)` triple, first matching
priority wins. -/
def analyze_element (e : Element) : LocatorStrategy × String × String :=
  let elem_id := e.id
  let elem_name := e.name
  let elem_text := pyStrip e.text
  let elem_tag := e.tag
  let elem_type := e.type
  let test_id := if e.data_testid ≠ "" then e.data_testid else e.testid
  let aria_label := e.aria_label
  if test_id ≠ "" then
    (LocatorStrategy.TEST_ID,
     "page.get_by_test_id(\"" ++ test_id ++ "\")",
     "Using data-testid " ++ apos ++ test_id ++ apos ++ " - most reliable for testing")
  else if elem_id ≠ "" ∧ ¬ (pyStartsWith elem_id "ember" = true) ∧ ¬ (uuidLikeId elem_id = true) then
    (LocatorStrategy.ID,
     "page.locator(\"#" ++ elem_id ++ "\")",
     "Using ID " ++ apos ++ elem_id ++ apos ++ " - stable identifier")
  else if aria_label ≠ "" then
    (LocatorStrategy.ARIA,
     "page.get_by_label(\"" ++ aria_label ++ "\")",
     "Using aria-label " ++ apos ++ aria_label ++ apos ++ " - semantic locator")
  else if elem_tag = "button" ∧ elem_text ≠ "" then
    (LocatorStrategy.ARIA,
     "page.get_by_role(\"button\", name=\"" ++ elem_text ++ "\")",
     "Using role " ++ apos ++ "button" ++ apos ++ " with name " ++ apos ++ elem_text ++ apos
       ++ " - semantic locator")
  else if elem_tag = "a" ∧ elem_text ≠ "" then
    (LocatorStrategy.ARIA,
     "page.get_by_role(\"link\", name=\"" ++ elem_text ++ "\")",
     "Using role " ++ apos ++ "link" ++ apos ++ " with name " ++ apos ++ elem_text ++ apos
       ++ " - semantic locator")
  else if elem_name ≠ "" then
    (LocatorStrategy.NAME,
     "page.locator(\"[name=" ++ apos ++ elem_name ++ apos ++ "]\")",
     "Using name attribute " ++ apos ++ elem_name ++ apos ++ " - good for forms")
  else if elem_text ≠ "" ∧ elem_text.length ≤ 50 then
    (LocatorStrategy.TEXT,
     "page.get_by_text(\"" ++ elem_text ++ "\", exact=True)",
     "Using text content " ++ apos ++ elem_text ++ apos ++ " - human readable")
  else if elem_tag ≠ "" then
    let css_selector :=
      if elem_type ≠ "" then elem_tag ++ "[type=\"" ++ elem_type ++ "\"]" else elem_tag
    (LocatorStrategy.CSS,
     "page.locator(\"" ++ css_selector ++ "\")",
     "Using CSS selector " ++ apos ++ css_selector ++ apos ++ " - tag-based fallback")
  else
    (LocatorStrategy.XPATH,
     "page.locator(\"//element\")",
     "Using XPath - needs manual refinement")

end LocatorAnalyzer

/-!  Code Validator (`code_generator.py` lines 143-203 and 770-787). -/

/-- The CPython `compile(code, '<string>', 'exec')` builtin used by
`CodeValidator.validate_syntax` is external to the repository; it is
modelled as an oracle: `none` means the code compiles, `some (lineno,
msg)` models the raised `SyntaxError`. -/
def PyCompileOracle : Type := String → Option (Int × String)

/-- A test-case dict as produced by `parse_test_cases` /
`_get_placeholder_tests`: those producers always set every key. -/
structure TestCase where
  id : Nat
  name : String
  description : String
  steps : List String
  expected_outcome : String
  priority : String
deriving DecidableEq, Repr

namespace CodeValidator

/-- Embedding of `CodeValidator.validate_syntax` (lines 147-155). -/
def validate_syntax (pyc : PyCompileOracle) (code : String) : Bool × List String :=
  match pyc code with
  | none => (true, [])
  | some (ln, msg) => (false, ["Syntax error at line " ++ toString ln ++ ": " ++ msg])

/-- Embedding of `CodeValidator.validate_playwright_patterns`
(lines 158-181): pure substring checks. -/
def validate_playwright_patterns (code : String) : Bool × List String :=
  let w1 :=
    if containsSub code "page.click(" ∧ ¬ containsSub code "page.locator" then
      ["Consider using page.locator().click() instead of page.click()"] else []
  let w2 :=
    if containsSub code "page.fill(" ∧ ¬ containsSub code "page.locator" then
      ["Consider using page.locator().fill() instead of page.fill()"] else []
  let w3 :=
    if containsSub code "goto(" ∧ ¬ containsSub code "wait_for" ∧ ¬ containsSub code "expect" then
      ["Consider adding explicit waits after navigation"] else []
  let w4 :=
    if containsSub code "time.sleep" ∨ containsSub code "asyncio.sleep" then
      ["Avoid hardcoded sleeps - use Playwright" ++ apos
        ++ "s auto-waiting or explicit waits"] else []
  let w5 :=
    if ¬ containsSub code "def test_" ∧ containsSub code "class Test" then
      ["Test methods should start with " ++ apos ++ "test_" ++ apos
        ++ " for pytest discovery"] else []
  let warnings := w1 ++ w2 ++ w3 ++ w4 ++ w5
  (warnings.length = 0, warnings)

/-- One iteration of the `validate_completeness` loop (lines 188-201),
with the `break` on a missing `def test_` modelled by stopping the
recursion. -/
def completenessAux (code codeLower : String) : List TestCase → List String
  | [] => []
  | tc :: rest =>
    let test_name := pyLower tc.name
    let safe0 := pyLower (subNonAlnumUnd test_name)
    let safe_name := pyStripChar '_' (collapseUndS safe0)
    if ¬ containsSub code "def test_" then ["No test methods found in generated code"]
    else
      let issue :=
        if safe_name ≠ "" ∧ ¬ containsSub codeLower safe_name then
          let words := (splitChar (Char.ofNat 95) safe_name.data).take 3
          if ¬ (words.any (fun w => decide (w.length > 3) && containsSub codeLower w) = true) then
            ["Test case " ++ apos ++ tc.name ++ apos ++ " may not be fully represented"]
          else []
        else []
      issue ++ completenessAux code codeLower rest

/-- Embedding of `CodeValidator.validate_completeness` (lines 184-203). -/
def validate_completeness (code : String) (tcs : List TestCase) : Bool × List String :=
  let issues := completenessAux code (pyLower code) tcs
  (issues.length = 0, issues)

end CodeValidator

/-- Embedding of the module-level `_validate_code` (lines 770-787):
collects syntax errors, anti-pattern warnings and completeness issues and
returns `(len(all_issues) == 0, all_issues)`. -/
def _validate_code (pyc : PyCompileOracle) (code : String) (tcs : List TestCase) :
    Bool × List String :=
  let s := CodeValidator.validate_syntax pyc code
  let issues1 := if s.1 then [] else s.2
  let p := CodeValidator.validate_playwright_patterns code
  let c := CodeValidator.validate_completeness code tcs
  let all := issues1 ++ p.2 ++ c.2
  (all.length = 0, all)

/-!  Test results and the execution log (`code_generator.py` lines 206-295).
The `duration` and `timestamp` float/time fields are not modelled. -/

/-- Result of a single test (`TestResult` dataclass). -/
structure TestResult where
  test_name : String
  passed : Bool
  error_message : String
  error_type : String
  line_number : Option Nat
deriving DecidableEq, Repr

/-- Complete log of a test execution (`TestExecutionLog` dataclass). -/
structure TestExecutionLog where
  code_file : String
  total_tests : Nat
  passed : Nat
  failed : Nat
  errors : Nat
  skipped : Nat
  test_results : List TestResult
  stdout : String
  stderr : String
  return_code : Int
deriving DecidableEq, Repr

/-- The `all_passed` property (lines 242-244). -/
def TestExecutionLog.all_passed (lg : TestExecutionLog) : Bool :=
  decide (lg.failed = 0) && decide (lg.errors = 0)

/-- The `success_rate` property (lines 246-250); Python float arithmetic
is modelled over `ℚ`, which is exact on the `total_tests == 0` branch the
claims are about. -/
def TestExecutionLog.success_rate (lg : TestExecutionLog) : ℚ :=
  if lg.total_tests = 0 then 0
  else ((lg.passed : ℚ) / (lg.total_tests : ℚ)) * 100

/-- The `get_failure_summary` method (lines 252-269). -/
def TestExecutionLog.get_failure_summary (lg : TestExecutionLog) : String :=
  let failures := lg.test_results.filter (fun r => !r.passed)
  if failures.isEmpty then "All tests passed!"
  else
    let header := "❌ " ++ toString failures.length ++ " test(s) failed:" ++ "\n"
    let blocks := failures.flatMap (fun r =>
      ["  - " ++ r.test_name ++ ":"]
      ++ (if r.error_type ≠ "" then ["    Type: " ++ r.error_type] else [])
      ++ (if r.error_message ≠ "" then ["    Error: " ++ pyTake 500 r.error_message] else [])
      ++ (match r.line_number with
          | some n => if n ≠ 0 then ["    Line: " ++ toString n] else []
          | none => [])
      ++ [""])
    joinSep "\n" (header :: blocks)

/-!  The pytest-output parser (`code_generator.py` lines 401-481).

Each `re` pattern is embedded as a scanner with Python's semantics.
For `(test_\w+)\s+(PASSED|FAILED|ERROR|SKIPPED)` (`re.IGNORECASE`,
`re.finditer`): at each position, `test_` is a case-insensitive literal;
`\w+` is a maximal word run (no backtracking is possible because a word
character can never satisfy the following `\s`); `\s+` likewise is a
maximal whitespace run; the alternation is tried left to right (its
branches start with distinct letters).  `finditer` scans left to right
and resumes after each match. -/

/-- The four statuses the per-test regex alternation can produce;
`group(2).upper()` of a match is `str` of this value. -/
inductive PyStatus where
  | passed | failed | error | skipped
deriving DecidableEq, Repr

/-- The uppercased matched status text (`match.group(2).upper()`). -/
def PyStatus.str : PyStatus → String
  | .passed => "PASSED"
  | .failed => "FAILED"
  | .error => "ERROR"
  | .skipped => "SKIPPED"

/-- Attempt to match `(test_\w+)\s+(PASSED|FAILED|ERROR|SKIPPED)` at the
start of `l`; on success returns group 1, the status, and the rest of the
input after the match. -/
def matchTestAt (l : List Char) : Option (String × PyStatus × List Char) :=
  match matchCI "test_".data l with
  | none => none
  | some r1 =>
    let w := r1.takeWhile wordChar
    if w.isEmpty then none else
    let r2 := r1.drop w.length
    let sp := r2.takeWhile spaceChar
    if sp.isEmpty then none else
    let r3 := r2.drop sp.length
    let name := String.mk (l.take (5 + w.length))
    match matchCI "PASSED".data r3 with
    | some rest => some (name, .passed, rest)
    | none =>
      match matchCI "FAILED".data r3 with
      | some rest => some (name, .failed, rest)
      | none =>
        match matchCI "ERROR".data r3 with
        | some rest => some (name, .error, rest)
        | none =>
          match matchCI "SKIPPED".data r3 with
          | some rest => some (name, .skipped, rest)
          | none => none

/-- The `re.finditer` loop for the per-test pattern; the fuel (initialised to
the input length, which bounds the number of scan steps) only serves
termination. -/
def findTestMatchesAux : Nat → List Char → List (String × PyStatus)
  | 0, _ => []
  | _, [] => []
  | fuel + 1, c :: cs =>
    match matchTestAt (c :: cs) with
    | some (n, st, rest) => (n, st) :: findTestMatchesAux fuel rest
    | none => findTestMatchesAux fuel cs

/-- All per-test matches of the verbose-output pattern, in order. -/
def findTestMatches (s : String) : List (String × PyStatus) :=
  findTestMatchesAux s.data.length s.data

/-- Counters incremented by the per-match loop of `_parse_pytest_output`
(lines 408-427): `(passed, failed, errors, skipped)`. -/
def statusCounts : List (String × PyStatus) → Nat × Nat × Nat × Nat
  | [] => (0, 0, 0, 0)
  | (_, st) :: rest =>
    let c := statusCounts rest
    match st with
    | .passed => (c.1 + 1, c.2.1, c.2.2.1, c.2.2.2)
    | .failed => (c.1, c.2.1 + 1, c.2.2.1, c.2.2.2)
    | .error => (c.1, c.2.1, c.2.2.1 + 1, c.2.2.2)
    | .skipped => (c.1, c.2.1, c.2.2.1, c.2.2.2 + 1)

/-- Which alternative of the summary pattern
`(\d+)\s+passed|(\d+)\s+failed|(\d+)\s+error` matched. -/
inductive SummaryKind where
  | sPassed | sFailed | sError
deriving DecidableEq, Repr

/-- Attempt to match one alternative `(\d+)\s+<lit>` (case-insensitive)
at the start of `l`. -/
def matchSummaryAlt (lit : String) (l : List Char) : Option (Nat × List Char) :=
  let d := l.takeWhile digitChar
  if d.isEmpty then none else
  let r1 := l.drop d.length
  let sp := r1.takeWhile spaceChar
  if sp.isEmpty then none else
  match matchCI lit.data (r1.drop sp.length) with
  | some rest => some (natOfDigits d, rest)
  | none => none

/-- Attempt the summary alternation at the start of `l`, alternatives
tried in pattern order. -/
def matchSummaryAt (l : List Char) : Option (SummaryKind × Nat × List Char) :=
  match matchSummaryAlt "passed" l with
  | some (n, rest) => some (.sPassed, n, rest)
  | none =>
    match matchSummaryAlt "failed" l with
    | some (n, rest) => some (.sFailed, n, rest)
    | none =>
      match matchSummaryAlt "error" l with
      | some (n, rest) => some (.sError, n, rest)
      | none => none

/-- The `re.finditer` loop for the summary pattern. -/
def findSummaryMatchesAux : Nat → List Char → List (SummaryKind × Nat)
  | 0, _ => []
  | _, [] => []
  | fuel + 1, c :: cs =>
    match matchSummaryAt (c :: cs) with
    | some (k, n, rest) => (k, n) :: findSummaryMatchesAux fuel rest
    | none => findSummaryMatchesAux fuel cs

/-- All summary-line matches, in order. -/
def findSummaryMatches (s : String) : List (SummaryKind × Nat) :=
  findSummaryMatchesAux s.data.length s.data

/-- The summary-branch assignments of `_parse_pytest_output`
(lines 433-440): each match overwrites the corresponding counter. -/
def applySummary : List (SummaryKind × Nat) → TestExecutionLog → TestExecutionLog
  | [], lg => lg
  | (k, n) :: rest, lg =>
    applySummary rest
      (match k with
       | .sPassed =>
         ⟨lg.code_file, lg.total_tests, n, lg.failed, lg.errors, lg.skipped,
          lg.test_results, lg.stdout, lg.stderr, lg.return_code⟩
       | .sFailed =>
         ⟨lg.code_file, lg.total_tests, lg.passed, n, lg.errors, lg.skipped,
          lg.test_results, lg.stdout, lg.stderr, lg.return_code⟩
       | .sError =>
         ⟨lg.code_file, lg.total_tests, lg.passed, lg.failed, n, lg.skipped,
          lg.test_results, lg.stdout, lg.stderr, lg.return_code⟩)

/-!  The FAILURES-section scanner: `re.search(r'=+ FAILURES =+(.+?)(?:=+ \w+ =+|$)',
output, re.DOTALL)` (line 450).  Greedy `=+` runs are maximal (the
following literal space can never be an `=`); the lazy `(.+?)` takes the
shortest non-empty content after which either the closing delimiter
`=+ \w+ =+` matches or `$` holds (`$` without `re.MULTILINE` matches at
the end of the string or just before a final newline); when no character
is left after the second `=` run, the engine backtracks that greedy run
by one character, which becomes the content. -/

/-- Does `=+ \w+ =+` match at the start of `l`? -/
def isTermAt (l : List Char) : Bool :=
  let a := l.takeWhile (· = '=')
  if a.isEmpty then false else
  match l.drop a.length with
  | ' ' :: r2 =>
    let w := r2.takeWhile wordChar
    if w.isEmpty then false else
    (match r2.drop w.length with
     | ' ' :: r3 => !(r3.takeWhile (· = '=')).isEmpty
     | _ => false)
  | _ => false

/-- Does `$` (no `re.MULTILINE`) match at the start of `l`? -/
def isDollarPos (l : List Char) : Bool := l.isEmpty || l = ['\n']

/-- Lazy `(.+?)` in DOTALL mode: shortest non-empty prefix after which the
closing delimiter or `$` matches. -/
def lazyUpto : List Char → List Char
  | [] => []
  | x :: xs => x :: (if isTermAt xs || isDollarPos xs then [] else lazyUpto xs)

/-- Attempt the full FAILURES-section pattern at the start of `l`,
returning `group(1)`. -/
def matchFailuresAt (l : List Char) : Option (List Char) :=
  let a := l.takeWhile (· = '=')
  if a.isEmpty then none else
  match matchCS " FAILURES ".data (l.drop a.length) with
  | none => none
  | some r2 =>
    let b := r2.takeWhile (· = '=')
    if b.isEmpty then none else
    let r := r2.drop b.length
    if !r.isEmpty then some (lazyUpto r)
    else if b.length ≥ 2 then some ['=']
    else none

/-- The `re.search` call: group 1 of the leftmost FAILURES-section match. -/
def findFailuresSection : List Char → Option (List Char)
  | [] => none
  | c :: cs =>
    match matchFailuresAt (c :: cs) with
    | some g => some g
    | none => findFailuresSection cs

/-!  The per-failure block split: `re.split(r'_+ (test_\w+) _+',
failures_text)` (line 458) followed by the pairing loop (lines 460-465).
The split pieces alternate `[pre, name, body, name, body, ...]` and the
loop reads pairs `(blocks[i], blocks[i+1])` for odd `i`, so the split is
embedded directly as the list of `(captured name, following piece)`
pairs; the leading piece is never read. -/

/-- Attempt `_+ (test_\w+) _+` at the start of `l`: `_+` and `\w+` are
maximal runs (the following literal space allows no backtracking).
Returns the captured name and the rest after the match. -/
def matchHdrAt (l : List Char) : Option (String × List Char) :=
  let u := l.takeWhile (· = '_')
  if u.isEmpty then none else
  match l.drop u.length with
  | ' ' :: r1 =>
    (match matchCS "test_".data r1 with
     | none => none
     | some r2 =>
       let w := r2.takeWhile wordChar
       if w.isEmpty then none else
       match r2.drop w.length with
       | ' ' :: r3 =>
         let v := r3.takeWhile (· = '_')
         if v.isEmpty then none else
         some ("test_" ++ String.mk w, r3.drop v.length)
       | _ => none)
  | _ => none

/-- Leftmost block-header match in `l`. -/
def findHdrFrom : List Char → Option (String × List Char)
  | [] => none
  | c :: cs =>
    match matchHdrAt (c :: cs) with
    | some r => some r
    | none => findHdrFrom cs

/-- Characters before the next block-header match (the split piece
between two matches), together with the remainder starting at that
match. -/
def bodyUntilHdr : List Char → List Char × List Char
  | [] => ([], [])
  | c :: cs =>
    if (matchHdrAt (c :: cs)).isSome then ([], c :: cs)
    else
      let (b, r) := bodyUntilHdr cs
      (c :: b, r)

/-- The `(name, body)` pairs the pairing loop iterates over.  Fuel bounds
the scan (each step consumes at least the matched header). -/
def splitHdrPairsAux : Nat → List Char → List (String × String)
  | 0, _ => []
  | fuel + 1, l =>
    match findHdrFrom l with
    | none => []
    | some (name, rest) =>
      let (body, rest') := bodyUntilHdr rest
      (name, String.mk body) :: splitHdrPairsAux fuel rest'

/-- All `(name, body)` failure blocks of a FAILURES section. -/
def splitHdrPairs (s : String) : List (String × String) :=
  splitHdrPairsAux (s.data.length + 1) s.data

/-!  The error-detail regexes (lines 471-479).
`([\w.]+Error|AssertionError|Exception):\s*(.+?)(?:\n|$)` without
`re.DOTALL`: the first alternative forces `group(1)` to be a maximal
`[\w.]` run that ends in `Error` (at least six characters - the `Error`
suffix must be preceded by at least one class character - and the
following `:` can never be a class character, so no shorter backtrack can
succeed); `AssertionError` is subsumed by it; `Exception` matches exactly
when the run is the literal `Exception`.  After `:`, greedy `\s*` runs to
its maximal extent; the character after a maximal whitespace run is never
a newline, so the lazy `(.+?)` is the run of non-newline characters from
there; if the string ends inside the whitespace run the engine backtracks
`\s*` to the last non-newline whitespace character, which becomes the
content. -/

/-- Does `l` end with `suf`? -/
def endsL (l suf : List Char) : Bool := isPre suf.reverse l.reverse

/-- The `\s*(.+?)(?:\n|$)` tail after the matched `:`: returns
`group(2)`. -/
def errTail (l : List Char) : Option String :=
  let w := l.takeWhile spaceChar
  let rest := l.drop w.length
  if !rest.isEmpty then some (String.mk (rest.takeWhile (fun c => c != '\n')))
  else
    match w.reverse.dropWhile (· = '\n') with
    | [] => none
    | c :: _ => some (String.mk [c])

/-- Attempt the error-type pattern at the start of `l`, returning
`(group(1), group(2))`. -/
def matchErrAt (l : List Char) : Option (String × String) :=
  let R := l.takeWhile wordDot
  let afterR := l.drop R.length
  if R.isEmpty then none
  else if ¬ ((R.length ≥ 6 ∧ endsL R "Error".data = true) ∨ R = "Exception".data) then none
  else
    match afterR with
    | ':' :: r2 => (errTail r2).map (fun msg => (String.mk R, msg))
    | _ => none

/-- The `re.search` call for the error-type pattern: leftmost match. -/
def findErrMatch : List Char → Option (String × String)
  | [] => none
  | c :: cs =>
    match matchErrAt (c :: cs) with
    | some r => some r
    | none => findErrMatch cs

/-- Attempt `:(\d+):` at the start of `l`. -/
def matchLineAt : List Char → Option Nat
  | ':' :: r =>
    let d := r.takeWhile digitChar
    if d.isEmpty then none
    else
      (match r.drop d.length with
       | ':' :: _ => some (natOfDigits d)
       | _ => none)
  | _ => none

/-- The search for `:(\d+):`: leftmost match, as `int(group(1))`. -/
def findLineNum : List Char → Option Nat
  | [] => none
  | c :: cs =>
    match matchLineAt (c :: cs) with
    | some n => some n
    | none => findLineNum cs

/-- The update applied to a matching failing `TestResult` inside
`_extract_error_details` (lines 470-479): the error type/message are set
only when the error regex matches, the line number only when the line
regex matches. -/
def updateResult (body : String) (r : TestResult) : TestResult :=
  let r1 :=
    match findErrMatch body.data with
    | some (ty, msg) => ⟨r.test_name, r.passed, pyTake 500 (pyStrip msg), ty, r.line_number⟩
    | none => r
  match findLineNum body.data with
  | some n => ⟨r1.test_name, r1.passed, r1.error_message, r1.error_type, some n⟩
  | none => r1

/-- Attach one failure block to the first failing result with the block's
test name (the inner loop of `_extract_error_details`, which `break`s
after the first match). -/
def attachOnce (name body : String) : List TestResult → List TestResult
  | [] => []
  | r :: rest =>
    if r.test_name = name ∧ r.passed = false then updateResult body r :: rest
    else r :: attachOnce name body rest

/-- Embedding of `CodeRunner._extract_error_details` (lines 446-481). -/
def _extract_error_details (output : String) (log : TestExecutionLog) : TestExecutionLog :=
  match findFailuresSection output.data with
  | none => log
  | some ftext =>
    let pairs := splitHdrPairs (String.mk ftext)
    ⟨log.code_file, log.total_tests, log.passed, log.failed, log.errors, log.skipped,
     pairs.foldl (fun rs p => attachOnce p.1 p.2 rs) log.test_results,
     log.stdout, log.stderr, log.return_code⟩

/-- The `TestResult` appended for one per-test match (lines 412-418). -/
def mkTestResult (n : String) (st : PyStatus) : TestResult :=
  ⟨n, decide (st = .passed), "", if st = .passed then "" else st.str, none⟩

/-- Embedding of `CodeRunner._parse_pytest_output` (lines 401-444). -/
def _parse_pytest_output (stdout stderr : String) (log : TestExecutionLog) :
    TestExecutionLog :=
  let ms := findTestMatches stdout
  let newResults := ms.map (fun p => mkTestResult p.1 p.2)
  let cnt := statusCounts ms
  let results := log.test_results ++ newResults
  let log1 : TestExecutionLog :=
    ⟨log.code_file, results.length, log.passed + cnt.1, log.failed + cnt.2.1,
     log.errors + cnt.2.2.1, log.skipped + cnt.2.2.2, results,
     log.stdout, log.stderr, log.return_code⟩
  let log2 :=
    if log1.total_tests = 0 then
      let l2 := applySummary (findSummaryMatches stdout) log1
      ⟨l2.code_file, l2.passed + l2.failed + l2.errors + l2.skipped, l2.passed, l2.failed,
       l2.errors, l2.skipped, l2.test_results, l2.stdout, l2.stderr, l2.return_code⟩
    else log1
  _extract_error_details (stdout ++ "\n" ++ stderr) log2

/-!  Code Runner (`code_generator.py` lines 298-399). -/

/-- Outcome of one invocation of the external pytest harness
(`subprocess.run` inside the `try` of `run_tests`): it completed with
captured output, the `timeout + 30` bound expired
(`subprocess.TimeoutExpired`), or some step of the `try` block raised
(`except Exception as e`). -/
inductive HarnessOutcome where
  | completed (stdout stderr : String) (returncode : Int)
  | timedOut
  | raised (msg : String)
deriving DecidableEq, Repr

/-- What `run_tests` leaves behind: the returned log and whether the
temporary workspace was removed.  The `finally` block's `shutil.rmtree`
is modelled as succeeding (the source additionally swallows any error it
might raise). -/
structure RunOutcome where
  log : TestExecutionLog
  tempDirRemoved : Bool
deriving Repr

/-- Embedding of `CodeRunner.run_tests` (lines 313-399).  `tempDir` is
the fresh directory returned by `tempfile.mkdtemp`; the written code
string itself only reaches the harness, so it does not appear in the
result. -/
def CodeRunner.run_tests (timeoutSecs : Nat) (tempDir : String) (_code : String)
    (o : HarnessOutcome) : RunOutcome :=
  let code_file := tempDir ++ "/test_generated.py"
  let fresh : TestExecutionLog := ⟨code_file, 0, 0, 0, 0, 0, [], "", "", 0⟩
  match o with
  | .completed out err rc =>
    let lg : TestExecutionLog :=
      ⟨code_file, 0, 0, 0, 0, 0, [], out, err, rc⟩
    ⟨_parse_pytest_output out err lg, true⟩
  | .timedOut =>
    ⟨⟨fresh.code_file, fresh.total_tests, fresh.passed, fresh.failed, 1, fresh.skipped,
      fresh.test_results, fresh.stdout,
      "Test execution timed out after " ++ toString timeoutSecs ++ " seconds",
      fresh.return_code⟩, true⟩
  | .raised msg =>
    ⟨⟨fresh.code_file, fresh.total_tests, fresh.passed, fresh.failed, 1, fresh.skipped,
      fresh.test_results, fresh.stdout,
      "Error running tests: " ++ msg, fresh.return_code⟩, true⟩

/-!  Model-response extraction (`_call_llm_for_code`, lines 700-767).
The shape probing over ChatMessage / dict / string responses collapses
into the single raw content string; `none` models a raised exception or
a response from which no content could be extracted. -/

/-- The final acceptance checks of `_call_llm_for_code` (lines 752-761):
reject code under 100 characters or containing neither `import` nor
`def `. -/
def extractFinal (code : String) : Option String :=
  if code.length < 100 then none
  else if ¬ containsSub code "import" ∧ ¬ containsSub code "def " then none
  else some code

/-- Embedding of `_call_llm_for_code`: strips, removes markdown fences,
and rejects responses that are too short or contain neither `import` nor
`def `. -/
def _call_llm_for_code (raw : Option String) : Option String :=
  match raw with
  | none => none
  | some content =>
    let code := pyStrip content
    let code :=
      if containsSub code "```python" then
        match findSubIdx "```python".data code.data with
        | some idx =>
          let start := idx + 9
          (match findSubFrom code "```" start with
           | some e =>
             if e > start then String.mk ((code.data.drop start).take (e - start)) else code
           | none => code)
        | none => code
      else if pyStartsWith code "```" = true then
        let c1 := pyDrop 3 code
        if containsSub c1 "```" then
          match findSubIdx "```".data c1.data with
          | some e => pyTake e c1
          | none => c1
        else c1
      else code
    let code := if pyEndsWith code "```" = true then pyTake (code.length - 3) code else code
    extractFinal (pyStrip code)

/-!  Template Fallback Generator (`code_generator.py` lines 790-903). -/

/-- Embedding of `_create_method_name` (lines 879-903); the three
attempts (id, text, tag) are tried in order, falling through when a
guard fails. -/
def _create_method_name (e : Element) : Option String :=
  let fromId :=
    if e.id ≠ "" then
      let n := pyTake 25 (pyStripChar '_' (collapseUndS (subNonAlnumUnd e.id)))
      if n ≠ "" ∧ ¬ (headIsDigit n = true) then some n else none
    else none
  match fromId with
  | some n => some n
  | none =>
    let fromText :=
      if e.text ≠ "" then
        let text := pyTake 20 (pyStrip e.text)
        let n := pyLower (pyStripChar '_' (collapseUndS (subNonAlnumUnd text)))
        if n ≠ "" ∧ n.length > 2 ∧ ¬ (headIsDigit n = true) then some n else none
      else none
    match fromText with
    | some n => some n
    | none =>
      if e.tag ≠ "" then
        some (pyTake 20 (if e.type ≠ "" then e.tag ++ "_" ++ e.type else e.tag))
      else none

/-- One page-object locator method of the fallback template
(lines 802-810); `none` when `_create_method_name` yields nothing. -/
def locatorMethod (e : Element) : Option String :=
  let a := LocatorAnalyzer.analyze_element e
  match _create_method_name e with
  | some m =>
    some ("    def get_" ++ m ++ "(self):\n        \"\"\"Locator using "
      ++ a.1.enumName ++ " strategy\"\"\"\n        return "
      ++ pyReplace a.2.1 "page." "self.page.")
  | none => none

/-- One generated test method of the fallback template (lines 813-835);
`i` is the 0-based `enumerate` index. -/
def testMethod (i : Nat) (tc : TestCase) : String :=
  let tn0 := pyLower (subNonAlnumUnd tc.name)
  let tn1 := pyStripChar '_' (collapseUndS tn0)
  let test_name := if tn1 = "" ∨ headIsDigit tn1 = true then "test_" ++ toString (i + 1) else tn1
  let steps_comments := joinSep "\n        "
    (tc.steps.enum.map (fun p => "# Step " ++ toString (p.1 + 1) ++ ": " ++ p.2))
  "    def test_" ++ test_name ++ "(self, page: Page):\n        \"\"\"\n        "
    ++ tc.description
    ++ "\n        \n        Expected: " ++ tc.expected_outcome
    ++ "\n        Priority: " ++ tc.priority
    ++ "\n        \"\"\"\n        web_page = WebPage(page)\n        web_page.navigate()\n        \n        "
    ++ steps_comments
    ++ "\n        \n        # TODO: Implement test steps\n        page.wait_for_load_state(\"networkidle\")"

/-- Embedding of `_generate_fallback_code` (lines 790-876): the exact
rendered template, with `datetime.now().strftime(...)` supplied as
`now`. -/
def _generate_fallback_code (tcs : List TestCase) (url suite_name : String)
    (elements : List Element) (now : String) : String :=
  let safe_name := subNonAlnumUnd suite_name
  let locator_methods := (elements.take 15).filterMap locatorMethod
  let test_methods := tcs.enum.map (fun p => testMethod p.1 p.2)
  let locBlock :=
    if locator_methods.isEmpty then "    pass" else joinSep "\n" locator_methods
  "\"\"\"\nGenerated Test Suite: "
    ++ (suite_name
    ++ "\nURL: " ++ url
    ++ "\nGenerated: " ++ now
    ++ "\nTest Framework: Playwright + pytest\nNote: This is fallback-generated code - review and enhance as needed\n\"\"\"\n\nimport re\nimport pytest\nfrom playwright.sync_api import Page, expect\n\n\nclass WebPage:\n    \"\"\"Page Object Model for "
    ++ url
    ++ "\"\"\"\n    \n    def __init__(self, page: Page):\n        self.page = page\n        self.url = \""
    ++ url
    ++ "\"\n    \n    def navigate(self):\n        \"\"\"Navigate to the page\"\"\"\n        self.page.goto(self.url)\n        self.page.wait_for_load_state(\"domcontentloaded\")\n    \n"
    ++ locBlock
    ++ "\n\n\nclass Test"
    ++ safe_name
    ++ ":\n    \"\"\"Generated test suite: "
    ++ suite_name
    ++ "\"\"\"\n    \n    @pytest.fixture(autouse=True)\n    def setup(self, page: Page):\n        \"\"\"Setup before each test\"\"\"\n        page.set_viewport_size(\x7b\"width\": 1280, \"height\": 720\x7d)\n        yield\n        # Teardown after each test\n    \n"
    ++ joinSep "\n" test_methods
    ++ "\n")

/-!  Generation Orchestrator (`generate_code_with_llm`, lines 484-629).
The prompts assembled for the model carry no information back into the
control flow, so they are not rendered; the Language Model Collaborator
is the environment map `llm` from call index to raw response, the pytest
harness the map `harness` from run index to outcome, and `tempDir` the
fresh directory `tempfile.mkdtemp` returns for each run. -/

/-- The per-request environment of one `generate_code_with_llm` call. -/
structure GenEnv where
  llm : Nat → Option String
  pyErr : PyCompileOracle
  harness : Nat → HarnessOutcome
  tempDir : Nat → String
  now : String

/-- What `generate_code_with_llm` produces: the `(code, execution log)`
pair of the source plus the number of model calls issued (counted for
the retry-bound property). -/
structure GenOut where
  code : String
  execLog : Option TestExecutionLog
  llmCalls : Nat

/-- The `for attempt in range(max_retries)` self-correction loop
(lines 579-621).  Arguments: remaining iterations, next model-call
index, next harness-run index, current code, current `final_log`. -/
def selfCorrectLoop (env : GenEnv) (tcs : List TestCase) (runFlag : Bool) :
    Nat → Nat → Nat → String → Option TestExecutionLog → GenOut
  | 0, c, _, code, flog => ⟨code, flog, c⟩
  | fuel + 1, c, r, code, flog =>
    let v := _validate_code env.pyErr code tcs
    let stepRun := runFlag && v.1
    let runRes :=
      if stepRun then
        let lg := (CodeRunner.run_tests 120 (env.tempDir r) code (env.harness r)).log
        (some lg, r + 1, if lg.all_passed then ([] : List String) else [lg.get_failure_summary])
      else (flog, r, ([] : List String))
    let flog' := runRes.1
    let allIssues := v.2 ++ runRes.2.2
    let brk := allIssues.isEmpty &&
      (!runFlag || (match flog' with | some lg => lg.all_passed | none => false))
    if brk = true then ⟨code, flog', c⟩
    else
      let corrected := _call_llm_for_code (env.llm c)
      let code' :=
        match corrected with
        | some cc => if cc = "" then code else cc
        | none => code
      selfCorrectLoop env tcs runFlag fuel (c + 1) runRes.2.1 code' flog'

/-- Embedding of `generate_code_with_llm` (lines 484-629): initial model
call, self-correction loop, final syntax check, fallback on failure.
(`_call_llm_for_code` never returns an empty string, so Python's
`if not code` is exactly the `none` case.) -/
def generate_code_with_llm (env : GenEnv) (tcs : List TestCase) (url suite_name : String)
    (elements : List Element) (max_retries : Nat) (runFlag : Bool) : GenOut :=
  match _call_llm_for_code (env.llm 0) with
  | none => ⟨_generate_fallback_code tcs url suite_name elements env.now, none, 1⟩
  | some code0 =>
    let out := selfCorrectLoop env tcs runFlag max_retries 1 0 code0 none
    let fin := CodeValidator.validate_syntax env.pyErr out.code
    if fin.1 then ⟨out.code, out.execLog, out.llmCalls⟩
    else ⟨_generate_fallback_code tcs url suite_name elements env.now, out.execLog, out.llmCalls⟩

/-- Embedding of `apply_custom_instructions` (lines 920-966): the
instruction text only feeds the prompt; `raw` is the model's response. -/
def apply_custom_instructions (pyc : PyCompileOracle) (base_code _instructions : String)
    (raw : Option String) : String :=
  match _call_llm_for_code raw with
  | some refined =>
    if (CodeValidator.validate_syntax pyc refined).1 then refined else base_code
  | none => base_code

/-!  Test-case parser post-processing (`src/parsers/test_parser.py`,
lines 89-135).  The block-extraction stage (lines 16-85, the regex scan
that turns raw model text into test-case records) is abstracted as the
`extract` parameter: the claims about `parse_test_cases` concern only
the deduplication, renumbering and placeholder stages, which hold for
every extraction result, hence for every model output string. -/

/-- The deduplication loop (lines 90-100): keep the first test case for
each `(lowercased name, lowercased first step)` key. -/
def dedupeAux (seen : List (String × String)) : List TestCase → List TestCase
  | [] => []
  | tc :: rest =>
    let key := (pyLower tc.name, match tc.steps with | [] => "" | s :: _ => pyLower s)
    if seen.contains key then dedupeAux seen rest
    else tc :: dedupeAux (key :: seen) rest

/-- The renumbering loop (lines 102-104): `tc["id"] = idx + 1`. -/
def renumber : Nat → List TestCase → List TestCase
  | _, [] => []
  | n, tc :: rest =>
    ⟨n + 1, tc.name, tc.description, tc.steps, tc.expected_outcome, tc.priority⟩
      :: renumber (n + 1) rest

/-- Embedding of `_get_placeholder_tests` (lines 116-135). -/
def _get_placeholder_tests : List TestCase :=
  [⟨1, "Header Presence", "Auto-generated test case",
    ["Navigate to page", "Verify header exists"], "Header element is visible", "Medium"⟩,
   ⟨2, "Footer Presence", "Auto-generated test case",
    ["Navigate to page", "Verify footer exists"], "Footer element is visible", "Medium"⟩]

/-- Embedding of `parse_test_cases` (lines 89-113) over an arbitrary
block-extraction stage `extract`. -/
def parse_test_cases (extract : String → List TestCase) (llm_output : String) :
    List TestCase :=
  let uniq := renumber 0 (dedupeAux [] (extract llm_output))
  if uniq.isEmpty then _get_placeholder_tests else uniq

/-!  Concrete inputs used by counterexamples and witnesses. -/

/-- A syntactically valid Python snippet that triggers the hard-coded
sleep anti-pattern warning (CPython `compile` accepts it). -/
def sleepCode : String := "import time\ntime.sleep(5)\n"

/-- A harness output that contains the line `test_login FAILED` and a
FAILURES section containing `AssertionError: expected url to match`, but
no underscore-delimited per-test block header. -/
def out7bad : String :=
  "test_login FAILED\n==== FAILURES ====\nAssertionError: expected url to match\n"

/-- The canonical pytest-shaped output: the same per-test line and
FAILURES section, with the `____ test_login ____` block header. -/
def out7good : String :=
  "test_login FAILED\n==== FAILURES ====\n____ test_login ____\nE   AssertionError: expected url to match\n"

/-- Test-case input whose description is a bare triple quote: rendered
into the fallback template it terminates the generated method docstring
early, so the template is not valid Python. -/
def tcsC1 : List TestCase := [⟨1, "t", "\"\"\"", [], "x y", "Medium"⟩]

/-- Environment for the C1 counterexample: the model always fails, and
the compile oracle records CPython's verdict on the one string this run
produces - the fallback template rendered from `tcsC1`, whose embedded
`\"\"\"` description closes the generated method docstring early and turns
the following template lines into code; CPython rejects exactly this
string with `SyntaxError: unterminated triple-quoted string literal
(detected at line 52)` at line 45. -/
def envC1 : GenEnv :=
  ⟨fun _ => none,
   fun s => if s = _generate_fallback_code tcsC1 "http://e.com" "S" [] "2026-01-01" then
       some (45, "unterminated triple-quoted string literal (detected at line 52)")
     else none,
   fun _ => HarnessOutcome.timedOut,
   fun _ => "/tmp/w",
   "2026-01-01"⟩

/-- Environment for the C10 witness: harness output matching neither the
per-test nor the summary pattern, and an accepting compile oracle. -/
def envW : GenEnv :=
  ⟨fun _ => none,
   fun _ => none,
   fun _ => HarnessOutcome.completed "no tests ran" "" 5,
   fun _ => "/tmp/w",
   "2026-01-01"⟩

/-- A code string that passes every static validator. -/
def codeW : String := "def test_a(): pass"

/-!  Helper lemmas. -/

/-- The four counters incremented by the per-match loop sum to the number
of matches: each match increments exactly one of them. -/
theorem statusCounts_sum (l : List (String × PyStatus)) :
    (statusCounts l).1 + (statusCounts l).2.1 + (statusCounts l).2.2.1
      + (statusCounts l).2.2.2 = l.length := by
  induction l with
  | nil => rfl
  | cons p rest ih =>
    obtain ⟨nm, st⟩ := p
    cases st <;> simp only [statusCounts, List.length_cons] <;> omega

/-- Lemma: `_extract_error_details` only rewrites fields of existing results: it
changes neither the counters nor the total. -/
theorem extract_fields (o : String) (lg : TestExecutionLog) :
    (_extract_error_details o lg).total_tests = lg.total_tests ∧
    (_extract_error_details o lg).passed = lg.passed ∧
    (_extract_error_details o lg).failed = lg.failed ∧
    (_extract_error_details o lg).errors = lg.errors ∧
    (_extract_error_details o lg).skipped = lg.skipped := by
  unfold _extract_error_details
  cases findFailuresSection o.data <;> simp

/-- Attaching failure blocks to an empty result list yields the empty
list. -/
theorem attach_nil (pairs : List (String × String)) :
    pairs.foldl (fun rs p => attachOnce p.1 p.2 rs) [] = [] := by
  induction pairs with
  | nil => rfl
  | cons p rest ih => simpa [attachOnce] using ih

/-- Lemma: `_extract_error_details` of a log with no results is that log. -/
theorem extract_no_results (o : String) (lg : TestExecutionLog)
    (h : lg.test_results = []) : _extract_error_details o lg = lg := by
  unfold _extract_error_details
  cases lg
  simp only at h
  cases findFailuresSection o.data with
  | none => rfl
  | some ftext => simp [h, attach_nil]

/-- Log arithmetic on the parsing path: a completed harness run always
yields `total_tests = passed + failed + errors + skipped`, whether the
counters come from per-test matches or from the summary line. -/
theorem run_completed_arith (t : Nat) (d c out err : String) (rc : Int) :
    (CodeRunner.run_tests t d c (HarnessOutcome.completed out err rc)).log.total_tests =
      (CodeRunner.run_tests t d c (HarnessOutcome.completed out err rc)).log.passed +
      (CodeRunner.run_tests t d c (HarnessOutcome.completed out err rc)).log.failed +
      (CodeRunner.run_tests t d c (HarnessOutcome.completed out err rc)).log.errors +
      (CodeRunner.run_tests t d c (HarnessOutcome.completed out err rc)).log.skipped := by
  unfold CodeRunner.run_tests _parse_pytest_output
  obtain ⟨h1, h2, h3, h4, h5⟩ :=
    extract_fields (out ++ "\n" ++ err)
      (let ms := findTestMatches out
       let newResults := ms.map (fun p => mkTestResult p.1 p.2)
       let cnt := statusCounts ms
       let results := ([] : List TestResult) ++ newResults
       let log1 : TestExecutionLog :=
         ⟨d ++ "/test_generated.py", results.length, 0 + cnt.1, 0 + cnt.2.1,
          0 + cnt.2.2.1, 0 + cnt.2.2.2, results, out, err, rc⟩
       if log1.total_tests = 0 then
         let l2 := applySummary (findSummaryMatches out) log1
         ⟨l2.code_file, l2.passed + l2.failed + l2.errors + l2.skipped, l2.passed, l2.failed,
          l2.errors, l2.skipped, l2.test_results, l2.stdout, l2.stderr, l2.return_code⟩
       else log1)
  simp only
  rw [h1, h2, h3, h4, h5]
  by_cases h0 :
      (findTestMatches out).length = 0
  · simp [h0, List.length_map]
  · have hs := statusCounts_sum (findTestMatches out)
    simp [List.length_map, h0, hs]

/-- A completed run whose output matches neither the per-test pattern nor
the summary pattern parses to the all-zero log. -/
theorem run_completed_zero (t : Nat) (d c out err : String) (rc : Int)
    (h1 : findTestMatches out = []) (h2 : findSummaryMatches out = []) :
    (CodeRunner.run_tests t d c (HarnessOutcome.completed out err rc)).log =
      ⟨d ++ "/test_generated.py", 0, 0, 0, 0, 0, [], out, err, rc⟩ := by
  unfold CodeRunner.run_tests _parse_pytest_output
  simp only [h1, h2]
  rw [extract_no_results]
  · simp [applySummary, statusCounts]
  · simp [applySummary, statusCounts]

/-- Lemma: `renumber` hands out consecutive ids starting at `n + 1`. -/
theorem renumber_map_id (l : List TestCase) :
    ∀ n, (renumber n l).map (fun tc => tc.id) = List.range' (n + 1) l.length := by
  induction l with
  | nil => intro n; rfl
  | cons tc rest ih =>
    intro n
    simp [renumber, List.range'_succ, ih (n + 1)]

/-- Lemma: `renumber` preserves the length. -/
theorem renumber_length (l : List TestCase) (n : Nat) :
    (renumber n l).length = l.length := by
  induction l generalizing n with
  | nil => rfl
  | cons tc rest ih => simp [renumber, ih]

/-- Code accepted by the extraction stage is at least 100 characters
long. -/
theorem extractFinal_len (x c : String) (h : extractFinal x = some c) :
    100 ≤ c.length := by
  unfold extractFinal at h
  split at h
  · exact absurd h (by simp)
  · split at h
    · exact absurd h (by simp)
    · obtain rfl : x = c := by injection h
      omega

/-- Lemma: `_call_llm_for_code` never returns a string shorter than 100
characters. -/
theorem call_llm_len (raw : Option String) (c : String)
    (h : _call_llm_for_code raw = some c) : 100 ≤ c.length := by
  unfold _call_llm_for_code at h
  cases raw with
  | none => exact absurd h (by simp)
  | some content => exact extractFinal_len _ _ h

/-- One unfolding of the self-correction loop either breaks - returning
the current code and the current call counter - or recurses with the
call counter incremented and a code string that is unchanged or came
from the extraction stage. -/
theorem selfCorrectLoop_succ_cases (env : GenEnv) (tcs : List TestCase) (rf : Bool)
    (n c r code : _) (flog : Option TestExecutionLog) :
    (∃ fl, selfCorrectLoop env tcs rf (n + 1) c r code flog = ⟨code, fl, c⟩) ∨
    (∃ r' code' fl, selfCorrectLoop env tcs rf (n + 1) c r code flog =
        selfCorrectLoop env tcs rf n (c + 1) r' code' fl ∧
        (code' = code ∨ _call_llm_for_code (env.llm c) = some code')) := by
  rw [selfCorrectLoop]
  simp only
  repeat' split
  all_goals
    first
    | (left; exact ⟨_, rfl⟩)
    | (right
       refine ⟨_, _, _, rfl, ?_⟩
       first
       | (left; rfl)
       | (right; assumption))

/-- The self-correction loop issues at most one model call per
iteration. -/
theorem loop_calls_le (env : GenEnv) (tcs : List TestCase) (rf : Bool) :
    ∀ fuel c r code flog,
      (selfCorrectLoop env tcs rf fuel c r code flog).llmCalls ≤ c + fuel := by
  intro fuel
  induction fuel with
  | zero => intro c r code flog; simp [selfCorrectLoop]
  | succ n ih =>
    intro c r code flog
    rcases selfCorrectLoop_succ_cases env tcs rf n c r code flog with
      ⟨fl, heq⟩ | ⟨r', code', fl, heq, _⟩
    · rw [heq]
      show c ≤ c + (n + 1)
      omega
    · rw [heq]
      refine le_trans (ih (c + 1) r' code' fl) ?_
      omega

/-- The self-correction loop never shrinks the current code below the
100-character extraction bound. -/
theorem loop_code_len (env : GenEnv) (tcs : List TestCase) (rf : Bool) :
    ∀ fuel c r code flog, 100 ≤ code.length →
      100 ≤ (selfCorrectLoop env tcs rf fuel c r code flog).code.length := by
  intro fuel
  induction fuel with
  | zero => intro c r code flog h; simpa [selfCorrectLoop] using h
  | succ n ih =>
    intro c r code flog h
    rcases selfCorrectLoop_succ_cases env tcs rf n c r code flog with
      ⟨fl, heq⟩ | ⟨r', code', fl, heq, hcode⟩
    · rw [heq]
      exact h
    · rw [heq]
      refine ih (c + 1) r' code' fl ?_
      rcases hcode with rfl | hx
      · exact h
      · exact call_llm_len _ _ hx

/-- The fallback template is never the empty string. -/
theorem fallback_ne_empty (tcs : List TestCase) (url sn : String)
    (elems : List Element) (now : String) :
    _generate_fallback_code tcs url sn elems now ≠ "" := by
  unfold _generate_fallback_code
  intro h
  have h2 := congrArg String.length h
  rw [String.length_append] at h2
  have h3 : ("\"\"\"\nGenerated Test Suite: " : String).length = 26 := rfl
  have h4 : ("" : String).length = 0 := rfl
  omega

/-!  Claim theorems. -/

/-- C3: `LocatorAnalyzer.analyze_element` evaluates the fixed priority
order with first match winning: (1) any element exposing a test-id (the
`data-testid` attribute, or `testid` when that is empty, per the `or` of
line 45) gets the TestId strategy regardless of other attributes; (2) an
element whose id matches the auto-generated pattern (prefix `ember` or
the 36-character lowercase-hex/hyphen shape) is analysed exactly like the
same element without an id, i.e. the Id strategy is skipped in favour of
the next eligible strategy; (3) on `{tag: "button", text: "Login", id:
"ember42"}` the result is the Aria strategy with the role-based locator
for role `button` and name `Login`. -/
theorem C3_locator_priority :
    (∀ e : Element, (if e.data_testid ≠ "" then e.data_testid else e.testid) ≠ "" →
        (LocatorAnalyzer.analyze_element e).1 = LocatorStrategy.TEST_ID) ∧
    (∀ e : Element, pyStartsWith e.id "ember" = true ∨ uuidLikeId e.id = true →
        LocatorAnalyzer.analyze_element e = LocatorAnalyzer.analyze_element e.eraseId) ∧
    (LocatorAnalyzer.analyze_element ⟨"ember42", "", "Login", "button", "", "", "", ""⟩ =
      (LocatorStrategy.ARIA, "page.get_by_role(\"button\", name=\"Login\")",
       "Using role " ++ apos ++ "button" ++ apos ++ " with name " ++ apos ++ "Login"
         ++ apos ++ " - semantic locator")) := by
  refine ⟨?_, ?_, ?_⟩
  · intro e h
    simp only [LocatorAnalyzer.analyze_element]
    rw [if_pos h]
  · intro e h
    obtain ⟨i, n, t, tg, ty, dt, ti, al⟩ := e
    have hid : ¬ (i ≠ "" ∧ ¬ (pyStartsWith i "ember" = true) ∧ ¬ (uuidLikeId i = true)) := by
      rcases h with h | h <;> simp_all
    simp only [LocatorAnalyzer.analyze_element, Element.eraseId]
    by_cases htid : (if dt ≠ "" then dt else ti) ≠ ""
    · rw [if_pos htid, if_pos htid]
    · rw [if_neg htid, if_neg htid, if_neg hid,
        if_neg (by simp : ¬ (("" : String) ≠ "" ∧ ¬ (pyStartsWith "" "ember" = true)
          ∧ ¬ (uuidLikeId "" = true)))]
  · rfl

/-- Witness for C3 at concrete elements. -/
theorem C3_witness :
    (LocatorAnalyzer.analyze_element ⟨"x", "", "", "div", "", "tid", "", ""⟩).1 =
      LocatorStrategy.TEST_ID ∧
    LocatorAnalyzer.analyze_element ⟨"ember42", "", "Login", "button", "", "", "", ""⟩ =
      LocatorAnalyzer.analyze_element
        (Element.eraseId ⟨"ember42", "", "Login", "button", "", "", "", ""⟩) :=
  ⟨C3_locator_priority.1 _ (by decide),
   C3_locator_priority.2.1 _ (Or.inl (by decide))⟩

/-- C4 counterexample: the log built on the timeout path has
`errors = 1` but `total_tests = 0`, so `total_tests` is not the sum of
the four status buckets there, contrary to the claim's "including the
logs produced on the timeout and generic-exception paths". -/
theorem C4_counterexample :
    (CodeRunner.run_tests 120 "/tmp/d" "code" HarnessOutcome.timedOut).log.total_tests = 0 ∧
    (CodeRunner.run_tests 120 "/tmp/d" "code" HarnessOutcome.timedOut).log.errors = 1 ∧
    ¬ ((CodeRunner.run_tests 120 "/tmp/d" "code" HarnessOutcome.timedOut).log.total_tests =
        (CodeRunner.run_tests 120 "/tmp/d" "code" HarnessOutcome.timedOut).log.passed +
        (CodeRunner.run_tests 120 "/tmp/d" "code" HarnessOutcome.timedOut).log.failed +
        (CodeRunner.run_tests 120 "/tmp/d" "code" HarnessOutcome.timedOut).log.errors +
        (CodeRunner.run_tests 120 "/tmp/d" "code" HarnessOutcome.timedOut).log.skipped) := by
  refine ⟨rfl, rfl, ?_⟩
  decide

/-- C4 (amended): every log produced by the parsing path (a completed
harness run) satisfies `total_tests = passed + failed + errors +
skipped`, and `success_rate` is `0` whenever `total_tests = 0`; the
timeout and generic-exception paths set `errors = 1` while leaving
`total_tests = 0`, so the sum identity does not extend to them. -/
theorem C4_log_arithmetic :
    (∀ (t : Nat) (d c out err : String) (rc : Int),
      (CodeRunner.run_tests t d c (HarnessOutcome.completed out err rc)).log.total_tests =
        (CodeRunner.run_tests t d c (HarnessOutcome.completed out err rc)).log.passed +
        (CodeRunner.run_tests t d c (HarnessOutcome.completed out err rc)).log.failed +
        (CodeRunner.run_tests t d c (HarnessOutcome.completed out err rc)).log.errors +
        (CodeRunner.run_tests t d c (HarnessOutcome.completed out err rc)).log.skipped) ∧
    (∀ lg : TestExecutionLog, lg.total_tests = 0 → lg.success_rate = 0) := by
  constructor
  · intro t d c out err rc
    exact run_completed_arith t d c out err rc
  · intro lg h
    simp [TestExecutionLog.success_rate, h]

/-- Witness for C4 at a concrete harness output and a concrete empty
log. -/
theorem C4_witness :
    (CodeRunner.run_tests 120 "/tmp/d" "c"
        (HarnessOutcome.completed "test_a PASSED and 1 failed" "" 1)).log.total_tests =
      (CodeRunner.run_tests 120 "/tmp/d" "c"
        (HarnessOutcome.completed "test_a PASSED and 1 failed" "" 1)).log.passed +
      (CodeRunner.run_tests 120 "/tmp/d" "c"
        (HarnessOutcome.completed "test_a PASSED and 1 failed" "" 1)).log.failed +
      (CodeRunner.run_tests 120 "/tmp/d" "c"
        (HarnessOutcome.completed "test_a PASSED and 1 failed" "" 1)).log.errors +
      (CodeRunner.run_tests 120 "/tmp/d" "c"
        (HarnessOutcome.completed "test_a PASSED and 1 failed" "" 1)).log.skipped ∧
    TestExecutionLog.success_rate ⟨"", 0, 0, 0, 0, 0, [], "", "", 0⟩ = 0 :=
  ⟨C4_log_arithmetic.1 120 "/tmp/d" "c" "test_a PASSED and 1 failed" "" 1,
   C4_log_arithmetic.2 ⟨"", 0, 0, 0, 0, 0, [], "", "", 0⟩ rfl⟩

/-- C5: `run_tests` is total over every harness outcome - each failure
mode is returned as a `TestExecutionLog` rather than raised - the
timeout and crash outcomes produce a log with `errors = 1` and an
explanatory `stderr` message, and the temporary workspace is removed on
every exit path (the `finally` block). -/
theorem C5_runner_never_raises (timeoutSecs : Nat) (tempDir code : String)
    (o : HarnessOutcome) :
    (CodeRunner.run_tests timeoutSecs tempDir code o).tempDirRemoved = true ∧
    (o = HarnessOutcome.timedOut →
      (CodeRunner.run_tests timeoutSecs tempDir code o).log.errors = 1 ∧
      (CodeRunner.run_tests timeoutSecs tempDir code o).log.stderr =
        "Test execution timed out after " ++ toString timeoutSecs ++ " seconds") ∧
    (∀ m, o = HarnessOutcome.raised m →
      (CodeRunner.run_tests timeoutSecs tempDir code o).log.errors = 1 ∧
      (CodeRunner.run_tests timeoutSecs tempDir code o).log.stderr =
        "Error running tests: " ++ m) := by
  refine ⟨?_, ?_, ?_⟩
  · cases o <;> rfl
  · rintro rfl
    exact ⟨rfl, rfl⟩
  · rintro m rfl
    exact ⟨rfl, rfl⟩

/-- Witness for C5 at the timeout and crash outcomes. -/
theorem C5_witness :
    ((CodeRunner.run_tests 120 "/tmp/d" "c" HarnessOutcome.timedOut).tempDirRemoved = true ∧
     (CodeRunner.run_tests 120 "/tmp/d" "c" HarnessOutcome.timedOut).log.errors = 1 ∧
     (CodeRunner.run_tests 120 "/tmp/d" "c" HarnessOutcome.timedOut).log.stderr =
       "Test execution timed out after " ++ toString 120 ++ " seconds") ∧
    (CodeRunner.run_tests 120 "/tmp/d" "c" (HarnessOutcome.raised "boom")).log.errors = 1 ∧
    (CodeRunner.run_tests 120 "/tmp/d" "c" (HarnessOutcome.raised "boom")).log.stderr =
      "Error running tests: " ++ "boom" :=
  ⟨⟨(C5_runner_never_raises 120 "/tmp/d" "c" HarnessOutcome.timedOut).1,
    (C5_runner_never_raises 120 "/tmp/d" "c" HarnessOutcome.timedOut).2.1 rfl⟩,
   (C5_runner_never_raises 120 "/tmp/d" "c" (HarnessOutcome.raised "boom")).2.2 "boom" rfl⟩

/-- C6 (code bug): for the syntactically valid `sleepCode` (any compile
oracle accepting it), `_validate_code` returns `ok = false` because the
anti-pattern warning is counted into `ok` - the source's
`return len(all_issues) == 0` - although the claim (and the caller's own
comment `# Only run if syntax is valid`, line 592) says `ok` reflects
only the syntax result. -/
theorem C6_ok_not_syntax_only (pyc : PyCompileOracle) (h : pyc sleepCode = none) :
    _validate_code pyc sleepCode [] =
      (false, ["Avoid hardcoded sleeps - use Playwright" ++ apos
        ++ "s auto-waiting or explicit waits"]) := by
  unfold _validate_code CodeValidator.validate_syntax
  rw [h]
  rfl

/-- Witness for C6 with the trivially accepting oracle. -/
theorem C6_witness :
    _validate_code (fun _ => none) sleepCode [] =
      (false, ["Avoid hardcoded sleeps - use Playwright" ++ apos
        ++ "s auto-waiting or explicit waits"]) :=
  C6_ok_not_syntax_only (fun _ => none) rfl

/-- C7 counterexample: `out7bad` contains the per-test line
`test_login FAILED` followed by a FAILURES section containing
`AssertionError: expected url to match`, yet the parser leaves
`error_type = "FAILED"` (not `"AssertionError"`) and an empty
`error_message`, because the FAILURES section has no underscore block
header for `_extract_error_details` to split on. -/
theorem C7_counterexample :
    containsSub out7bad "test_login FAILED" = true ∧
    containsSub out7bad "FAILURES" = true ∧
    containsSub out7bad "AssertionError: expected url to match" = true ∧
    (CodeRunner.run_tests 120 "/tmp/d" "c"
        (HarnessOutcome.completed out7bad "" 1)).log.test_results.map
      (fun r => (r.test_name, r.passed, r.error_type, r.error_message)) =
      [("test_login", false, "FAILED", "")] := by
  refine ⟨by decide, by decide, by decide, by decide⟩

/-- C7 (amended): on the canonical pytest-shaped output - the per-test
line appearing once and the FAILURES section containing an
underscore-delimited `test_login` block with the AssertionError line -
the parser produces exactly one `TestResult` named `test_login` with
`passed = false`, `error_type = "AssertionError"` and the non-empty
message `expected url to match`. -/
theorem C7_parse_failure_details :
    (CodeRunner.run_tests 120 "/tmp/d" "c"
        (HarnessOutcome.completed out7good "" 1)).log.test_results.map
      (fun r => (r.test_name, r.passed, r.error_type, r.error_message)) =
      [("test_login", false, "AssertionError", "expected url to match")] ∧
    "expected url to match" ≠ "" := by
  refine ⟨by decide, by decide⟩

/-- C8: `apply_custom_instructions` is never destructive: when the
model's refined output is unusable (extraction yields nothing) or fails
the syntax check, the original code is returned unchanged; a different
string is returned only when it passes the syntax check. -/
theorem C8_refinement_nondestructive (pyc : PyCompileOracle) (raw : Option String)
    (base instr : String) :
    (_call_llm_for_code raw = none → apply_custom_instructions pyc base instr raw = base) ∧
    (∀ c, _call_llm_for_code raw = some c →
      (CodeValidator.validate_syntax pyc c).1 = false →
      apply_custom_instructions pyc base instr raw = base) ∧
    (apply_custom_instructions pyc base instr raw ≠ base →
      (CodeValidator.validate_syntax pyc
        (apply_custom_instructions pyc base instr raw)).1 = true) := by
  cases hx : _call_llm_for_code raw with
  | none =>
    have hm : apply_custom_instructions pyc base instr raw = base := by
      unfold apply_custom_instructions
      rw [hx]
    refine ⟨fun _ => hm, ?_, ?_⟩
    · intro c hc
      simp at hc
    · intro hne
      exact absurd hm hne
  | some c =>
    have hm : apply_custom_instructions pyc base instr raw =
        if (CodeValidator.validate_syntax pyc c).1 = true then c else base := by
      unfold apply_custom_instructions
      rw [hx]
    by_cases hv : (CodeValidator.validate_syntax pyc c).1 = true
    · rw [if_pos hv] at hm
      refine ⟨?_, ?_, ?_⟩
      · intro hc
        simp at hc
      · intro c' hc' hf
        obtain rfl : c = c' := by injection hc'
        simp [hv] at hf
      · intro _
        rw [hm]
        exact hv
    · rw [if_neg hv] at hm
      exact ⟨fun _ => hm, fun _ _ _ => hm, fun hne => absurd hm hne⟩

/-- Witness for C8: an unusable model response returns the base code
unchanged. -/
theorem C8_witness :
    apply_custom_instructions (fun _ => none) "base = 1" "make it nicer" none = "base = 1" :=
  (C8_refinement_nondestructive (fun _ => none) none "base = 1" "make it nicer").1 rfl

/-- C9: for every model output (every extraction result), the test cases
returned by `parse_test_cases` carry ids that are the consecutive
integers starting at 1 in list order, after deduplication - and the
placeholder list returned when nothing parses also satisfies this. -/
theorem C9_ids_contiguous (extract : String → List TestCase) (out : String) :
    (parse_test_cases extract out).map (fun tc => tc.id) =
      List.range' 1 (parse_test_cases extract out).length := by
  unfold parse_test_cases
  simp only
  split
  · rfl
  · rw [renumber_map_id, renumber_length]

/-- C1 counterexample: with a model that always fails and the test case
whose description is a bare triple quote, `generate_code_with_llm`
returns the fallback template unchecked, and that template does not pass
the syntax check - the embedded `\"\"\"` closes the generated docstring
early (CPython rejects this exact string with an unterminated
triple-quoted string literal error), so the result is not a
syntactically valid Python code string as the claim states. -/
theorem C1_counterexample :
    (generate_code_with_llm envC1 tcsC1 "http://e.com" "S" [] 2 false).code =
      _generate_fallback_code tcsC1 "http://e.com" "S" [] "2026-01-01" ∧
    (CodeValidator.validate_syntax envC1.pyErr
      (generate_code_with_llm envC1 tcsC1 "http://e.com" "S" [] 2 false).code).1 = false := by
  have hcode : (generate_code_with_llm envC1 tcsC1 "http://e.com" "S" [] 2 false).code =
      _generate_fallback_code tcsC1 "http://e.com" "S" [] "2026-01-01" := rfl
  refine ⟨hcode, ?_⟩
  rw [hcode]
  have hp : envC1.pyErr (_generate_fallback_code tcsC1 "http://e.com" "S" [] "2026-01-01") =
      some (45, "unterminated triple-quoted string literal (detected at line 52)") := by
    simp [envC1]
  rw [CodeValidator.validate_syntax, hp]

/-- C1 (amended): for every input and every collaborator behaviour,
`generate_code_with_llm` returns a non-empty code string; any returned
string other than the deterministic fallback template has passed the
final syntax check, while the fallback template itself is returned
without a syntax check. -/
theorem C1_total_fallback (env : GenEnv) (tcs : List TestCase) (url sn : String)
    (elems : List Element) (mr : Nat) (rf : Bool) :
    (generate_code_with_llm env tcs url sn elems mr rf).code ≠ "" ∧
    ((CodeValidator.validate_syntax env.pyErr
        (generate_code_with_llm env tcs url sn elems mr rf).code).1 = true ∨
      (generate_code_with_llm env tcs url sn elems mr rf).code =
        _generate_fallback_code tcs url sn elems env.now) := by
  unfold generate_code_with_llm
  cases h0 : _call_llm_for_code (env.llm 0) with
  | none => exact ⟨fallback_ne_empty _ _ _ _ _, Or.inr rfl⟩
  | some code0 =>
    have hlen : 100 ≤ (selfCorrectLoop env tcs rf mr 1 0 code0 none).code.length :=
      loop_code_len env tcs rf mr 1 0 code0 none (call_llm_len _ _ h0)
    simp only
    by_cases hv : (CodeValidator.validate_syntax env.pyErr
        (selfCorrectLoop env tcs rf mr 1 0 code0 none).code).1 = true
    · rw [if_pos hv]
      refine ⟨?_, Or.inl hv⟩
      intro he
      rw [he] at hlen
      simp at hlen
    · rw [if_neg hv]
      exact ⟨fallback_ne_empty _ _ _ _ _, Or.inr rfl⟩

/-- C2: one invocation of `generate_code_with_llm` calls the Language
Model Collaborator at most `max_retries + 1` times: one initial
generation call plus at most one repair call per retry-loop
iteration. -/
theorem C2_retry_bound (env : GenEnv) (tcs : List TestCase) (url sn : String)
    (elems : List Element) (mr : Nat) (rf : Bool) :
    (generate_code_with_llm env tcs url sn elems mr rf).llmCalls ≤ mr + 1 := by
  unfold generate_code_with_llm
  cases h0 : _call_llm_for_code (env.llm 0) with
  | none =>
    show (1 : Nat) ≤ mr + 1
    omega
  | some code0 =>
    have h := loop_calls_le env tcs rf mr 1 0 code0 none
    simp only
    split
    · exact le_trans h (by omega)
    · exact le_trans h (by omega)

/-- C10: `all_passed` is true whenever `failed = 0` and `errors = 0`,
even with `total_tests = 0`; consequently an execution attempt whose
harness output matches neither the per-test pattern nor the summary
pattern (so it parses to zero test results) is treated as fully passed
by the self-correction loop, which breaks at that iteration with no
further model call, returning that log whose `success_rate` is 0. -/
theorem C10_zero_tests_all_passed :
    (∀ lg : TestExecutionLog, lg.failed = 0 → lg.errors = 0 → lg.all_passed = true) ∧
    (∀ (env : GenEnv) (tcs : List TestCase) (fuel c r : Nat) (code : String)
        (flog : Option TestExecutionLog) (out err : String) (rc : Int),
      env.harness r = HarnessOutcome.completed out err rc →
      findTestMatches out = [] →
      findSummaryMatches out = [] →
      _validate_code env.pyErr code tcs = (true, []) →
      selfCorrectLoop env tcs true (fuel + 1) c r code flog =
        ⟨code, some ⟨env.tempDir r ++ "/test_generated.py", 0, 0, 0, 0, 0, [], out, err, rc⟩, c⟩ ∧
      TestExecutionLog.all_passed
        ⟨env.tempDir r ++ "/test_generated.py", 0, 0, 0, 0, 0, [], out, err, rc⟩ = true ∧
      TestExecutionLog.success_rate
        ⟨env.tempDir r ++ "/test_generated.py", 0, 0, 0, 0, 0, [], out, err, rc⟩ = 0) := by
  constructor
  · intro lg h1 h2
    simp [TestExecutionLog.all_passed, h1, h2]
  · intro env tcs fuel c r code flog out err rc hh h1 h2 hval
    have hlog := run_completed_zero 120 (env.tempDir r) code out err rc h1 h2
    refine ⟨?_, rfl, rfl⟩
    rw [selfCorrectLoop]
    simp only [hval, hh, hlog]
    simp [TestExecutionLog.all_passed]

/-- Witness for C10: the loop breaks on a concrete environment whose
harness output is `no tests ran`. -/
theorem C10_witness :
    TestExecutionLog.all_passed ⟨"", 0, 0, 0, 0, 0, [], "", "", 0⟩ = true ∧
    (selfCorrectLoop envW [] true 3 5 0 codeW none =
      ⟨codeW, some ⟨"/tmp/w" ++ "/test_generated.py", 0, 0, 0, 0, 0, [], "no tests ran", "", 5⟩, 5⟩ ∧
    TestExecutionLog.all_passed
      ⟨"/tmp/w" ++ "/test_generated.py", 0, 0, 0, 0, 0, [], "no tests ran", "", 5⟩ = true ∧
    TestExecutionLog.success_rate
      ⟨"/tmp/w" ++ "/test_generated.py", 0, 0, 0, 0, 0, [], "no tests ran", "", 5⟩ = 0) :=
  ⟨C10_zero_tests_all_passed.1 ⟨"", 0, 0, 0, 0, 0, [], "", "", 0⟩ rfl rfl,
   C10_zero_tests_all_passed.2 envW [] 2 5 0 codeW none "no tests ran" "" 5 rfl
     (by decide) (by decide) (by decide)⟩
